import Mathlib

/-!
# Verification of the elasticsearch connector (`elasticsearch_connector.py`)

A shallow embedding of the connector's core: the generic REST dispatcher
`_make_rest_call`, the three action handlers `_test_connectivity`,
`_run_query`, `_get_config`, and the router `handle_action`.

Modelling conventions:
* Python JSON values are modelled by the inductive type `Json` (numbers as
  `Int`; the claims never involve fractional numbers).
* Python dicts appearing as JSON objects are association lists in insertion
  order; `dictSet`/`dictUpdate` reproduce `dict.__setitem__`/`dict.update`
  (overwrite in place, append new keys at the end).
* Python exceptions that escape a function are modelled by `Except String`:
  `.error e` means the call raised `e`; `.ok` carries the structured result.
* The `requests` library, `json.loads`, and the Phantom platform's logging
  callbacks (`save_progress`, `debug_print`, `add_debug_data`) are external
  collaborators: the transport outcome is a parameter (`TransportOutcome`),
  `json.loads` is an oracle parameter `loads`, and logging is a no-op.
* `ActionResult` models the Phantom action-result container: status flag,
  message, ordered data list and summary dict, exactly the fields the
  connector populates.
-/

/-- A JSON value, as produced by a successful `json.loads` / `r.json()`.
Objects are association lists in insertion order (parsed Python dicts, so
keys are unique in every value produced by a parse). -/
inductive Json where
  | null
  | bool (b : Bool)
  | num (n : Int)
  | str (s : String)
  | arr (xs : List Json)
  | obj (fields : List (String × Json))
deriving Repr

/-- Python truthiness of a JSON value: `None`, `False`, `0`, `""`, `[]` and
`{}` are falsy, everything else truthy. -/
def Json.truthy : Json → Bool
  | .null => false
  | .bool b => b
  | .num n => n != 0
  | .str s => s ≠ ""
  | .arr xs => !xs.isEmpty
  | .obj fs => !fs.isEmpty

mutual

/-- Python `json.dumps`: serialize a JSON value to a string (separators as Python's
default `", "` / `": "`). -/
def Json.dumps : Json → String
  | .null => "null"
  | .bool true => "true"
  | .bool false => "false"
  | .num n => toString n
  | .str s => "\"" ++ s ++ "\""
  | .arr xs => "[" ++ dumpsList xs ++ "]"
  | .obj fs => "\x7b" ++ dumpsFields fs ++ "\x7d"

/-- The comma-separated rendering of a JSON array's elements. -/
def dumpsList : List Json → String
  | [] => ""
  | [x] => x.dumps
  | x :: y :: xs => x.dumps ++ ", " ++ dumpsList (y :: xs)

/-- The comma-separated rendering of a JSON object's members. -/
def dumpsFields : List (String × Json) → String
  | [] => ""
  | [(k, v)] => "\"" ++ k ++ "\": " ++ v.dumps
  | (k, v) :: f :: fs => "\"" ++ k ++ "\": " ++ v.dumps ++ ", " ++ dumpsFields (f :: fs)

end

/-- Python `dict.get(key, default)` on a JSON value: defined only on objects, raises
`AttributeError` otherwise (Python has no `.get` on lists/scalars). -/
def Json.get (j : Json) (k : String) (d : Json) : Except String Json :=
  match j with
  | .obj fs => .ok ((fs.lookup k).getD d)
  | _ => .error "AttributeError: object has no attribute get"

/-- Subscription `d[key]`: raises `KeyError` when the key is absent and
`TypeError` when the value is not an object. -/
def Json.subscript (j : Json) (k : String) : Except String Json :=
  match j with
  | .obj fs =>
    match fs.lookup k with
    | some v => .ok v
    | none => .error ("KeyError: " ++ k)
  | _ => .error "TypeError: object is not subscriptable"

/-- Python `d.keys()`: the keys of an object in insertion order; raises
`AttributeError` on non-objects. -/
def Json.keysOf (j : Json) : Except String (List String) :=
  match j with
  | .obj fs => .ok (fs.map Prod.fst)
  | _ => .error "AttributeError: object has no attribute keys"

/-- A string→string Python dict in insertion order (used for HTTP headers). -/
abbrev HeadersDict := List (String × String)

/-- Assignment `d[k] = v` on a Python dict: overwrite in place if the key exists,
otherwise append at the end (insertion order preserved). -/
def dictSet (d : HeadersDict) (k v : String) : HeadersDict :=
  if (d.lookup k).isSome then
    d.map (fun p => if p.1 = k then (k, v) else p)
  else
    d ++ [(k, v)]

/-- Python `d.update(u)`: apply `dictSet` for each pair of `u` in order. -/
def dictUpdate (d : HeadersDict) (u : HeadersDict) : HeadersDict :=
  u.foldl (fun acc p => dictSet acc p.1 p.2) d

/-- Python truthiness of an optional string (a `config.get(...)` result):
`None` and `""` are falsy. -/
def optTruthy : Option String → Bool
  | none => false
  | some s => s ≠ ""

/-- Python `str.replace(old, new)` for single characters, used by the connector to
strip braces from diagnostic text. -/
def strReplaceChar (s : String) (old new : Char) : String :=
  String.mk (s.data.map (fun c => if c = old then new else c))

/-- Python `s.find(pat)`: index of the first occurrence of `pat` in `s`, as
`Option` (Python returns `-1` for absence; the caller handles that case). -/
def strFind (s pat : String) : Option Nat :=
  (List.range (s.data.length + 1)).find? (fun i => List.isPrefixOf pat.data (s.data.drop i))

/-- Python `s.endswith('/')`. -/
def strEndsWithSlash (s : String) : Bool :=
  match s.data.getLast? with
  | some c => c = '/'
  | none => false

/-- The Phantom action-result container (external collaborator): the fields
the connector populates. `phantom.APP_SUCCESS` is `true`,
`phantom.APP_ERROR` is `false`. -/
structure ActionResult where
  status : Bool
  message : String
  data : List Json
  summary : List (String × Json)
deriving Repr

/-- A freshly created `ActionResult` (`ActionResult()` /
`add_action_result(ActionResult(dict(param)))`): no data, empty summary. -/
def ActionResult.fresh : ActionResult :=
  { status := true, message := "", data := [], summary := [] }

/-- The method `action_result.set_status(status, message)`: records status and message;
(the Python method also returns the status, which the embedding reads off
the field). -/
def ActionResult.set_status (ar : ActionResult) (b : Bool) (msg : String) : ActionResult :=
  { ar with status := b, message := msg }

/-- The method `action_result.add_data(item)`: appends one data entry. -/
def ActionResult.add_data (ar : ActionResult) (j : Json) : ActionResult :=
  { ar with data := ar.data ++ [j] }

/-- The method `action_result.update_summary(d)`: merges `d` into the summary dict. -/
def ActionResult.update_summary (ar : ActionResult) (u : List (String × Json)) : ActionResult :=
  { ar with summary := u.foldl (fun acc p =>
      if (acc.lookup p.1).isSome then
        acc.map (fun q => if q.1 = p.1 then p else q)
      else acc ++ [p]) ar.summary }

/-! ## Constants

`elasticsearch_consts.py` is not part of the provided sources; the message
templates below are modelled from the spec. Their exact wording decides no
claim — only the literal strings that appear in `elasticsearch_connector.py`
itself (such as the run-query validation message) matter to the theorems. -/

/-- Modelled from the spec: `elasticsearch_consts.py` is missing from the
sources; "unsupported method" cause for `TransportError` (§4.1). -/
def ELASTICSEARCH_ERR_API_UNSUPPORTED_METHOD : String :=
  "Unsupported method"

/-- Modelled from the spec: transport-failure message prefix (§4.1,
`TransportError{cause}`). -/
def ELASTICSEARCH_ERR_SERVER_CONNECTION : String :=
  "Error connecting to server"

/-- Modelled from the spec: parse-failure message template; the raw text has
its braces replaced so message templating cannot be corrupted (§4.1). -/
def ELASTICSEARCH_ERR_JSON_PARSE (raw_text : String) : String :=
  "Unable to parse reply as a Json, raw string reply: " ++ raw_text

/-- Modelled from the spec: server-reported-failure message template carrying
status and brace-stripped detail (§4.1). -/
def ELASTICSEARCH_ERR_FROM_SERVER (status : Nat) (detail : String) : String :=
  "Error from server, status code: " ++ toString status ++ ", detail: " ++ detail

/-- Modelled from the spec: summary key for the total hit count of a query
(§4.4 names it `totalHits`). -/
def ELASTICSEARCH_JSON_TOTAL_HITS : String := "totalHits"

/-- Modelled from the spec: summary key for the timed-out flag (§4.4 names it
`timedOut`). -/
def ELASTICSEARCH_JSON_TIMED_OUT : String := "timedOut"

/-! ## Config and `initialize` -/

/-- The asset configuration the host supplies (`self.get_config()`). -/
structure Config where
  device_url : String
  username : Option String
  password : Option String
  verify : Bool
deriving Repr, DecidableEq

/-- The connector's member state after `initialize` (together with the
persistent default-argument dict of `_make_rest_call`, see
`defaultHeaders`). -/
structure ConnectorState where
  base_url : String
  host : String
  headers : HeadersDict
  auth_method : Bool
  username : Option String
  password : Option String
  verify : Bool
  /-- The shared mutable dict that is the default value of the `headers`
  parameter of `_make_rest_call` (`headers={}` in the `def` line): created
  once when the function is defined and reused, with its mutations, by
  every invocation that omits the argument. -/
  defaultHeaders : HeadersDict
deriving Repr, DecidableEq

/-- The connector's per-action member setup: strip a trailing slash from the base URL, derive the host
as everything after `'//'` (Python `find` returns `-1` when absent, so the
slice then starts at index `1`), fix the `Accept` header, and enable
authentication exactly when both username and password are truthy
(`self._auth_method` stays `None`, i.e. falsy, otherwise). -/
def initializeConnector (c : Config) : ConnectorState :=
  let base_url := if strEndsWithSlash c.device_url then String.mk c.device_url.data.dropLast
    else c.device_url
  let host := match strFind base_url "//" with
    | some i => String.mk (base_url.data.drop (i + 2))
    | none => String.mk (base_url.data.drop 1)
  { base_url := base_url
    host := host
    headers := [("Accept", "application/json")]
    auth_method := optTruthy c.username && optTruthy c.password
    username := c.username
    password := c.password
    verify := c.verify
    defaultHeaders := [] }

/-! ## `_make_rest_call` -/

/-- The verb-named callables of the `requests` module. `getattr(requests,
method)` is called WITHOUT a default, so any name that is not an attribute
raises `AttributeError`; the embedding models the module's attribute set by
its HTTP-verb functions. -/
def requestsVerbs : List String :=
  ["get", "post", "put", "delete", "head", "options", "patch", "request"]

/-- Resolution `getattr(requests, method)`: the verb function, or an `AttributeError`
for a name the module does not have. (A Python function object is always
truthy, so the connector's `if (not request_func)` guard can never fire.) -/
def getattrRequests (method : String) : Except String Unit :=
  if requestsVerbs.contains method then .ok ()
  else .error ("AttributeError: module requests has no attribute " ++ method)

/-- An HTTP response as the `requests` library returns it: status code, raw
text, and the result of `r.json()` (`none` models a parse exception). -/
structure HttpResponse where
  status_code : Nat
  text : String
  jsonBody : Option Json
deriving Repr

/-- The outcome of invoking the transport: the verb function either raises
(network-level exception) or returns a response. -/
inductive TransportOutcome where
  | exn (e : String)
  | resp (r : HttpResponse)
deriving Repr

/-- The HTTP request actually handed to the `requests` verb function. -/
structure SentRequest where
  url : String
  auth : Option (Option String × Option String)
  body : Option String
  headers : HeadersDict
  params : Option (List (String × String))
  verify : Bool
deriving Repr

/-- What one `_make_rest_call` invocation produces: the returned
`(status, resp_json)` pair (or the exception that escaped), the
action-result object after the call, the new contents of the shared
default-`headers` dict, and the request given to the transport (`none`
means the transport was never invoked). -/
structure RestOut where
  result : Except String (Bool × Option Json)
  ar : ActionResult
  newDefault : HeadersDict
  sent : Option SentRequest
deriving Repr

/-- The dispatcher `_make_rest_call(endpoint, action_result, headers, params, data,
method)`, line by line:
1. merge `self._headers` into the caller's dict (the shared default when the
   argument is omitted, i.e. `headersArg = none`);
2. add `Content-Type: application/json` for `put`/`post`;
3. `getattr(requests, method)` — raises for unknown names, so the
   `if (not request_func)` unsupported-method return is unreachable;
4. invoke the transport with auth attached iff `_auth_method`, the body
   JSON-encoded iff `data` is truthy, catching transport exceptions;
5. `r.json()` — a parse failure becomes a brace-stripped error message;
6. classify: status in `[200, 399]` is success with the parsed body; any
   other status records the body as data and fails with a brace-stripped
   detail message. -/
def make_rest_call (st : ConnectorState) (endpoint : String) (ar : ActionResult)
    (headersArg : Option HeadersDict) (params : Option (List (String × String)))
    (data : Option Json) (method : String) (transport : TransportOutcome) : RestOut :=
  let headers0 := headersArg.getD st.defaultHeaders
  let headers1 := dictUpdate headers0 st.headers
  let headers2 := if method = "put" || method = "post" then
      dictUpdate headers1 [("Content-Type", "application/json")]
    else headers1
  let newDefault := if headersArg.isNone then headers2 else st.defaultHeaders
  match getattrRequests method with
  | .error e =>
    -- `getattr` raised before the dead `if (not request_func)` guard.
    { result := .error e, ar := ar, newDefault := newDefault, sent := none }
  | .ok _ =>
    -- A function object is truthy: the `if (not request_func)` branch
    -- returning ELASTICSEARCH_ERR_API_UNSUPPORTED_METHOD never executes.
    let auth := if st.auth_method then some (st.username, st.password) else none
    let body := match data with
      | some d => if d.truthy then some d.dumps else none
      | none => none
    let req : SentRequest :=
      { url := st.base_url ++ endpoint, auth := auth, body := body,
        headers := headers2, params := params, verify := st.verify }
    match transport with
    | .exn e =>
      { result := .ok (false, none),
        ar := ar.set_status false (ELASTICSEARCH_ERR_SERVER_CONNECTION ++ ": " ++ e),
        newDefault := newDefault, sent := some req }
    | .resp r =>
      match r.jsonBody with
      | none =>
        let msg := ELASTICSEARCH_ERR_JSON_PARSE
          (strReplaceChar (strReplaceChar r.text '{' ' ') '}' ' ')
        { result := .ok (false, none), ar := ar.set_status false msg,
          newDefault := newDefault, sent := some req }
      | some j =>
        if 200 ≤ r.status_code ∧ r.status_code ≤ 399 then
          { result := .ok (true, some j), ar := ar,
            newDefault := newDefault, sent := some req }
        else
          let ar1 := ar.add_data j
          let details := String.mk (j.dumps.data.filter (fun c => c ≠ '{' ∧ c ≠ '}'))
          { result := .ok (false, some j),
            ar := ar1.set_status false (ELASTICSEARCH_ERR_FROM_SERVER r.status_code details),
            newDefault := newDefault, sent := some req }

/-! ## Action handlers -/

/-- What one action handler invocation produces: the handler's return value
(or the exception that escaped it), the action result it populated, the new
contents of the shared default-`headers` dict, and the request given to the
transport (`none` = the dispatcher never reached the transport). -/
structure HandlerOut where
  result : Except String Bool
  ar : ActionResult
  newDefault : HeadersDict
  sent : Option SentRequest
deriving Repr

/-- The parameter bag of the `run query` action (`param[...]` accesses of
`_run_query`; `type` is a Lean keyword, hence `typ`). -/
structure QueryParam where
  index : String
  typ : String
  query : String
  routing : Option String
deriving Repr

/-- The `routing` handling of `_run_query`: `params = {'routing': routing}`
when `param.get('routing')` is truthy, otherwise `params = None`. -/
def routingParams : Option String → Option (List (String × String))
  | some r => if r ≠ "" then some [("routing", r)] else none
  | none => none

/-- The success path of `_run_query` after the REST call: read
`response.get('hits', {}).get('total', 0)` and
`response.get('timed_out', False)` (an `AttributeError` raised by `.get`
on a non-dict escapes), merge them into the summary, append the body as
data, and set the success status. -/
def run_query_success (out : RestOut) (body : Json) :
    Except String (Bool × ActionResult) := do
  let hits ← body.get "hits" (.obj [])
  let total ← hits.get "total" (.num 0)
  let timed ← body.get "timed_out" (.bool false)
  let ar1 := (out.ar.update_summary
    [(ELASTICSEARCH_JSON_TOTAL_HITS, total),
     (ELASTICSEARCH_JSON_TIMED_OUT, timed)]).add_data body
  pure (true, ar1.set_status true "")

/-- The handler `_run_query(param)`: parse the query string (failure sets an error
status embedding the parse error and returns before any REST call), build
`/{index}/{type}/_search`, pass `routing` as a query parameter when truthy,
call `_make_rest_call` (the `method` argument is omitted, so the call is a
GET) with the parsed query as `data`, and on success fill the summary from
`hits.total` / `timed_out`, append the body as data, and succeed.
`loads` is the external `json.loads`. -/
def run_query (st : ConnectorState) (loads : String → Except String Json)
    (p : QueryParam) (transport : TransportOutcome) : HandlerOut :=
  let ar := ActionResult.fresh
  match loads p.query with
  | .error e =>
    { result := .ok false,
      ar := ar.set_status false ("Unable to load query json. Error: " ++ e),
      newDefault := st.defaultHeaders, sent := none }
  | .ok query_json =>
    let endpoint := "/" ++ p.index ++ "/" ++ p.typ ++ "/_search"
    let out := make_rest_call st endpoint ar none (routingParams p.routing)
      (some query_json) "get" transport
    let res : Except String (Bool × ActionResult) := do
      let (ret, response) ← out.result
      if ret = false then
        pure (false, out.ar)
      else
        match response with
        | some b => run_query_success out b
        | none => Except.error "AttributeError: NoneType object has no attribute get"
    { result := res.map Prod.fst,
      ar := match res with | .error _ => out.ar | .ok pr => pr.2,
      newDefault := out.newDefault, sent := out.sent }

/-- The `for index in indices` loop of `_get_config`: for each index key,
read `response[index]['mappings'].keys()` (any `KeyError`/`TypeError`/
`AttributeError` raised escapes the loop) and append the `{index, types}`
data entry. -/
def get_config_loop (body : Json) (acc : ActionResult) (indices : List String) :
    Except String ActionResult :=
  indices.foldlM (fun acc index => do
      let entry ← body.subscript index
      let mappings ← entry.subscript "mappings"
      let types ← mappings.keysOf
      pure (acc.add_data (.obj [("index", .str index),
        ("types", .arr (types.map Json.str))]))) acc

/-- The handler `_get_config(param)`: `GET /_mapping`; on success iterate the response's
top-level keys, reading `response[index]['mappings'].keys()` for each (a
`KeyError`/`AttributeError` raised there escapes the handler), append one
`{index, types}` entry per index, record `total_indices`, and succeed. -/
def get_config_action (st : ConnectorState) (transport : TransportOutcome) : HandlerOut :=
  let ar := ActionResult.fresh
  let out := make_rest_call st "/_mapping" ar none none none "get" transport
  let res : Except String (Bool × ActionResult) := do
    let (ret, response) ← out.result
    if ret = false then
      pure (false, out.ar)
    else do
      let body ← match response with
        | some b => Except.ok b
        | none => Except.error "AttributeError: NoneType object has no attribute keys"
      let indices ← body.keysOf
      let ar1 ← get_config_loop body out.ar indices
      let ar2 := ar1.update_summary [("total_indices", .num indices.length)]
      pure (true, ar2.set_status true "")
  { result := res.map Prod.fst,
    ar := match res with | .error _ => out.ar | .ok pr => pr.2,
    newDefault := out.newDefault, sent := out.sent }

/-- Modelled from the spec: fixed "connectivity test failed" suffix
(§4.3), from the missing `elasticsearch_consts.py`. -/
def ELASTICSEARCH_ERR_CONNECTIVITY_TEST : String := "Connectivity test failed"

/-- Modelled from the spec: fixed confirmation message of a passed
connectivity check (§4.3), from the missing `elasticsearch_consts.py`. -/
def ELASTICSEARCH_SUCC_CONNECTIVITY_TEST : String := "Connectivity test passed"

/-- The handler `_test_connectivity(param)`: `GET /_cluster/health` against a local
`ActionResult()` (not added to the connector); on failure the connector
status carries the dispatcher's message with the fixed failure suffix
appended, on success the fixed confirmation message. The handler's `ar`
field is the local action result after the call. -/
def test_connectivity (st : ConnectorState) (transport : TransportOutcome) : HandlerOut :=
  let ar := ActionResult.fresh
  let out := make_rest_call st "/_cluster/health" ar none none none "get" transport
  match out.result with
  | .error e =>
    { result := .error e, ar := out.ar, newDefault := out.newDefault, sent := out.sent }
  | .ok (ret, _) =>
    if ret = false then
      { result := .ok false,
        ar := { out.ar with
          message := out.ar.message ++ " " ++ ELASTICSEARCH_ERR_CONNECTIVITY_TEST },
        newDefault := out.newDefault, sent := out.sent }
    else
      { result := .ok true,
        ar := out.ar.set_status true ELASTICSEARCH_SUCC_CONNECTIVITY_TEST,
        newDefault := out.newDefault, sent := out.sent }

/-! ## `handle_action` -/

/-- Class constant `ACTION_ID_RUN_QUERY`. -/
def ACTION_ID_RUN_QUERY : String := "run_query"

/-- Class constant `ACTION_ID_GET_CONFIG`. -/
def ACTION_ID_GET_CONFIG : String := "get_config"

/-- Modelled from the spec: `phantom.ACTION_ID_TEST_ASSET_CONNECTIVITY`, the
platform's identifier for the connectivity-check action (§4.2 "three
constants"); its exact text decides no claim, only its distinctness. -/
def ACTION_ID_TEST_ASSET_CONNECTIVITY : String := "test_asset_connectivity"

/-- What routing one action produces: the returned value (or escaped
exception), the action results added to the connector via
`add_action_result`, and the transport request if any was attempted. -/
structure RouteOut where
  result : Except String Bool
  results : List ActionResult
  sent : Option SentRequest
deriving Repr

/-- The router `handle_action(param)`: `ret_val` is initialized to `phantom.APP_SUCCESS`
and the action identifier is matched against the three constants; an
identifier matching none of them skips every branch and returns the
pre-initialized success value with no operation invoked. -/
def handle_action (st : ConnectorState) (loads : String → Except String Json)
    (action : String) (p : QueryParam) (transport : TransportOutcome) : RouteOut :=
  if action = ACTION_ID_RUN_QUERY then
    let out := run_query st loads p transport
    { result := out.result, results := [out.ar], sent := out.sent }
  else if action = ACTION_ID_GET_CONFIG then
    let out := get_config_action st transport
    { result := out.result, results := [out.ar], sent := out.sent }
  else if action = ACTION_ID_TEST_ASSET_CONNECTIVITY then
    let out := test_connectivity st transport
    { result := out.result, results := [], sent := out.sent }
  else
    { result := .ok true, results := [], sent := none }

/-! ## Call sequences sharing the default-`headers` dict -/

/-- One `_make_rest_call` invocation in a sequence, keeping only what the
shared default-`headers` dict can observe: whether the `headers` argument
was passed, and the method. -/
structure CallSpec where
  headersArg : Option HeadersDict
  method : String
deriving Repr

/-- A benign transport outcome for header-sequence runs (the response never
influences the headers sent). -/
def okTransport : TransportOutcome :=
  .resp { status_code := 200, text := "\x7b\x7d", jsonBody := some (.obj []) }

/-- The contents of the shared default-`headers` dict after one more call. -/
def defaultAfterCall (st : ConnectorState) (d : HeadersDict) (c : CallSpec) : HeadersDict :=
  (make_rest_call { st with defaultHeaders := d } "/x" ActionResult.fresh
    c.headersArg none none c.method okTransport).newDefault

/-- The contents of the shared default-`headers` dict after a sequence of
calls. -/
def defaultAfterCalls (st : ConnectorState) (d : HeadersDict) (cs : List CallSpec) : HeadersDict :=
  cs.foldl (defaultAfterCall st) d

/-- The headers actually sent by one call, given the current contents of the
shared default dict (`[]` when the transport is never reached). -/
def sentHeadersOf (st : ConnectorState) (d : HeadersDict) (c : CallSpec) : HeadersDict :=
  match (make_rest_call { st with defaultHeaders := d } "/x" ActionResult.fresh
      c.headersArg none none c.method okTransport).sent with
  | some r => r.headers
  | none => []

/-! ## Claim-side readers and fixtures -/

/-- The spec's `body.hits.total` reader: the `total` member of the `hits`
object, defaulting to `0` when `hits` or `hits.total` is absent. -/
def hitsTotalOf (fs : List (String × Json)) : Json :=
  match fs.lookup "hits" with
  | some (.obj hs) => (hs.lookup "total").getD (.num 0)
  | some _ => .num 0
  | none => .num 0

/-- The spec's `body.timed_out` reader, defaulting to `false` when absent. -/
def timedOutValOf (fs : List (String × Json)) : Json :=
  (fs.lookup "timed_out").getD (.bool false)

/-- The type names of one index object: the keys of its `mappings` object
(`[]` when the shape is not an object with an object-valued `mappings`). -/
def mappingTypeNames (v : Json) : List String :=
  match Json.subscript v "mappings" with
  | .ok (.obj ms) => ms.map Prod.fst
  | _ => []

/-- The data entry `_get_config` builds for index key `k` of the parsed
`/_mapping` body `fs`. -/
def gcEntry (fs : List (String × Json)) (k : String) : Json :=
  .obj [("index", .str k),
        ("types", .arr ((mappingTypeNames ((fs.lookup k).getD .null)).map Json.str))]

/-- An example asset configuration (both credentials present). -/
def exConfig : Config :=
  { device_url := "https://es.example.com:9200/", username := some "u",
    password := some "p", verify := true }

/-- The connector state after `initialize` on `exConfig`. -/
def exState : ConnectorState := initializeConnector exConfig

/-- An example `run query` parameter bag. -/
def exQueryParam : QueryParam :=
  { index := "idx", typ := "doc", query := "ignored-by-oracle", routing := none }

/-- The spec's search-response scenario body:
`\x7b"hits": \x7b"total": 42\x7d, "timed_out": false\x7d`. -/
def exHitsBody : List (String × Json) :=
  [("hits", .obj [("total", .num 42)]), ("timed_out", .bool false)]

/-- A 200 response carrying `exHitsBody`. -/
def exRespHits : HttpResponse :=
  { status_code := 200, text := "", jsonBody := some (.obj exHitsBody) }

/-- The spec's `_mapping` scenario body:
`\x7b"idx1": \x7b"mappings": \x7b"t1": \x7b\x7d, "t2": \x7b\x7d\x7d\x7d\x7d`. -/
def exMappingBody : List (String × Json) :=
  [("idx1", .obj [("mappings", .obj [("t1", .obj []), ("t2", .obj [])])])]

/-- A 200 response carrying `exMappingBody`. -/
def exRespMapping : HttpResponse :=
  { status_code := 200, text := "", jsonBody := some (.obj exMappingBody) }

/-- A 200 `_mapping` response in which the index object LACKS a `mappings`
key. -/
def exRespBadMapping : HttpResponse :=
  { status_code := 200, text := "", jsonBody := some (.obj [("idx1", .obj [])]) }

/-! ## Association-list lemmas for header dicts -/

/-- Overwriting an existing key in place leaves `lookup` of that key at the
new value. -/
theorem lookup_map_overwrite (d : HeadersDict) (k v : String)
    (h : (d.lookup k).isSome) :
    ((d.map (fun p => if p.1 = k then (k, v) else p)).lookup k) = some v := by
  induction d with
  | nil => simp [List.lookup] at h
  | cons p d ih =>
    obtain ⟨a, b⟩ := p
    by_cases hk : a = k
    · subst hk
      simp [List.lookup_cons]
    · have h' : (d.lookup k).isSome := by
        simpa [List.lookup_cons, beq_false_of_ne (Ne.symm hk)] using h
      simp [List.lookup_cons, hk, beq_false_of_ne (Ne.symm hk), ih h']

/-- Overwriting key `k` does not change `lookup` of any other key. -/
theorem lookup_map_overwrite_ne (d : HeadersDict) (k v k' : String)
    (hne : k' ≠ k) :
    ((d.map (fun p => if p.1 = k then (k, v) else p)).lookup k') = d.lookup k' := by
  induction d with
  | nil => simp
  | cons p d ih =>
    obtain ⟨a, b⟩ := p
    by_cases hk : a = k
    · subst hk
      simp [List.lookup_cons, beq_false_of_ne hne, ih]
    · simp only [List.map_cons, if_neg hk]
      by_cases hp : k' = a
      · subst hp
        simp [List.lookup_cons]
      · simp [List.lookup_cons, beq_false_of_ne hp, ih]

/-- Appending a fresh binding makes its key found. -/
theorem lookup_append_single (d : HeadersDict) (k v : String) :
    ((d ++ [(k, v)]).lookup k) = if (d.lookup k).isSome then d.lookup k else some v := by
  induction d with
  | nil => simp [List.lookup_cons, List.lookup]
  | cons p d ih =>
    obtain ⟨a, b⟩ := p
    by_cases hp : k = a
    · subst hp
      simp [List.lookup_cons]
    · have hb : (k == a) = false := beq_false_of_ne hp
      simp only [List.cons_append, List.lookup, hb]
      exact ih

/-- Appending a binding for `k` does not change `lookup` of other keys. -/
theorem lookup_append_single_ne (d : HeadersDict) (k v k' : String)
    (hne : k' ≠ k) :
    ((d ++ [(k, v)]).lookup k') = d.lookup k' := by
  induction d with
  | nil => simp [List.lookup_cons, List.lookup, beq_false_of_ne hne]
  | cons p d ih =>
    obtain ⟨a, b⟩ := p
    by_cases hp : k' = a
    · subst hp
      simp [List.lookup_cons]
    · simp [List.lookup_cons, beq_false_of_ne hp, ih]

/-- A `dictSet` makes its key map to its value. -/
theorem dictSet_lookup_self (d : HeadersDict) (k v : String) :
    (dictSet d k v).lookup k = some v := by
  unfold dictSet
  by_cases h : (d.lookup k).isSome
  · simp [h, lookup_map_overwrite d k v h]
  · rw [if_neg h, lookup_append_single d k v, if_neg h]

/-- A `dictSet` leaves every other key's `lookup` unchanged. -/
theorem dictSet_lookup_ne (d : HeadersDict) (k v k' : String) (hne : k' ≠ k) :
    (dictSet d k v).lookup k' = d.lookup k' := by
  unfold dictSet
  by_cases h : (d.lookup k).isSome
  · simp [h, lookup_map_overwrite_ne d k v k' hne]
  · simp [h, lookup_append_single_ne d k v k' hne]

/-- A one-entry `dict.update` is a single `dictSet`. -/
theorem dictUpdate_single (d : HeadersDict) (k v : String) :
    dictUpdate d [(k, v)] = dictSet d k v := rfl

/-- The new contents of the shared default-`headers` dict after one
`_make_rest_call`, in closed form: unchanged when the `headers` argument was
passed explicitly; otherwise the dict as mutated by the `update` calls
(always `Accept`, plus `Content-Type` for `put`/`post`). -/
theorem make_rest_call_newDefault (st : ConnectorState) (endpoint : String)
    (ar : ActionResult) (headersArg : Option HeadersDict)
    (params : Option (List (String × String))) (data : Option Json)
    (method : String) (transport : TransportOutcome) :
    (make_rest_call st endpoint ar headersArg params data method transport).newDefault =
      if headersArg.isNone then
        (if method = "put" || method = "post" then
          dictUpdate (dictUpdate (headersArg.getD st.defaultHeaders) st.headers)
            [("Content-Type", "application/json")]
        else dictUpdate (headersArg.getD st.defaultHeaders) st.headers)
      else st.defaultHeaders := by
  unfold make_rest_call
  rcases getattrRequests method with e | u
  · rfl
  · rcases transport with e | r
    · rfl
    · obtain ⟨code, text, jb⟩ := r
      rcases jb with _ | j
      · rfl
      · by_cases hc : 200 ≤ code ∧ code ≤ 399
        · simp only [if_pos hc]
        · simp only [if_neg hc]

/-- One more call through the dispatcher never removes the `Content-Type`
entry the shared default dict has accumulated. -/
theorem defaultAfterCall_content_type (c : Config) (d : HeadersDict) (cs : CallSpec)
    (h : d.lookup "Content-Type" = some "application/json") :
    (defaultAfterCall (initializeConnector c) d cs).lookup "Content-Type"
      = some "application/json" := by
  unfold defaultAfterCall
  rw [make_rest_call_newDefault]
  obtain ⟨harg, m⟩ := cs
  rcases harg with _ | hdrs
  · show (if (decide (m = "put") || decide (m = "post")) = true then
        dictUpdate (dictUpdate d [("Accept", "application/json")])
          [("Content-Type", "application/json")]
      else dictUpdate d [("Accept", "application/json")]).lookup "Content-Type"
      = some "application/json"
    split
    · rw [dictUpdate_single, dictSet_lookup_self]
    · rw [show dictUpdate d [("Accept", "application/json")]
          = dictSet d "Accept" "application/json" from rfl,
        dictSet_lookup_ne _ _ _ _ (by decide : "Content-Type" ≠ "Accept")]
      exact h
  · exact h

/-- The accumulated `Content-Type` entry survives any further sequence of
dispatcher calls. -/
theorem defaultAfterCalls_content_type (c : Config) (mid : List CallSpec)
    (d : HeadersDict)
    (h : d.lookup "Content-Type" = some "application/json") :
    (defaultAfterCalls (initializeConnector c) d mid).lookup "Content-Type"
      = some "application/json" := by
  induction mid generalizing d with
  | nil => exact h
  | cons cs mid ih => exact ih _ (defaultAfterCall_content_type c d cs h)

/-- C10: because `_make_rest_call` declares `headers={}` with a shared
mutable default dict, the `Content-Type: application/json` entry merged
during a POST that omitted the `headers` argument persists: after such a
POST, any later call omitting `headers` — here a GET, after any further
calls in between — also sends `Content-Type: application/json`, so the
header is not attached exactly when the method is POST/PUT. -/
theorem default_headers_content_type_leak (c : Config) (mid : List CallSpec) :
    (sentHeadersOf (initializeConnector c)
        (defaultAfterCalls (initializeConnector c)
          (defaultAfterCall (initializeConnector c)
            (initializeConnector c).defaultHeaders
            { headersArg := none, method := "post" })
          mid)
        { headersArg := none, method := "get" }).lookup "Content-Type"
      = some "application/json" := by
  have h1 : (defaultAfterCall (initializeConnector c)
      (initializeConnector c).defaultHeaders
      { headersArg := none, method := "post" }).lookup "Content-Type"
      = some "application/json" := rfl
  have h2 := defaultAfterCalls_content_type c mid _ h1
  have h3 : ∀ d, sentHeadersOf (initializeConnector c) d
      { headersArg := none, method := "get" }
      = dictUpdate d [("Accept", "application/json")] := fun d => rfl
  rw [h3, dictUpdate_single,
    dictSet_lookup_ne _ _ _ _ (by decide : "Content-Type" ≠ "Accept")]
  exact h2

/-- C2 (code bug in the source): `_make_rest_call` with a method name that
is not an attribute of the `requests` module raises an uncaught
`AttributeError` at `getattr(requests, method)` — `getattr` is called
without a default, so the `if (not request_func)` guard meant to return the
structured unsupported-method error is unreachable. No transport invocation
occurs, but the promised structured outcome is never produced: the
exception escapes instead. -/
theorem make_rest_call_unknown_method_raises :
    (make_rest_call exState "/e" ActionResult.fresh none none none "foo"
        okTransport).result
      = .error "AttributeError: module requests has no attribute foo" ∧
    (make_rest_call exState "/e" ActionResult.fresh none none none "foo"
        okTransport).sent = none :=
  ⟨rfl, rfl⟩

/-- C4: for a response whose body parses as JSON, a status code in the
inclusive range [200, 399] classifies as success carrying the parsed body
with the action result untouched; any other status code classifies as a
server-reported failure whose parsed body is retained in the returned pair
and also appended to the action result as diagnostic data. -/
theorem make_rest_call_status_classification
    (st : ConnectorState) (endpoint : String) (ar : ActionResult)
    (headersArg : Option HeadersDict) (params : Option (List (String × String)))
    (data : Option Json) (method : String) (r : HttpResponse) (j : Json)
    (hm : getattrRequests method = .ok ()) (hjson : r.jsonBody = some j) :
    ((200 ≤ r.status_code ∧ r.status_code ≤ 399) →
      (make_rest_call st endpoint ar headersArg params data method (.resp r)).result
          = .ok (true, some j) ∧
      (make_rest_call st endpoint ar headersArg params data method (.resp r)).ar = ar) ∧
    (¬(200 ≤ r.status_code ∧ r.status_code ≤ 399) →
      (make_rest_call st endpoint ar headersArg params data method (.resp r)).result
          = .ok (false, some j) ∧
      (make_rest_call st endpoint ar headersArg params data method (.resp r)).ar.data
          = ar.data ++ [j] ∧
      (make_rest_call st endpoint ar headersArg params data method (.resp r)).ar.status
          = false) := by
  constructor
  · intro hc
    unfold make_rest_call
    simp only [hm, hjson, if_pos hc]
    refine ⟨?_, ?_⟩ <;> trivial
  · intro hc
    unfold make_rest_call
    simp only [hm, hjson, if_neg hc]
    refine ⟨?_, ?_, ?_⟩ <;> trivial

/-- Witness for C4 at the edge status codes: 200, 299, 399 classify as
success; 400 fails; 199 fails and retains the body as data. -/
theorem make_rest_call_status_classification_witness :
    (make_rest_call exState "/e" ActionResult.fresh none none none "get"
        (.resp { status_code := 200, text := "", jsonBody := some Json.null })).result
      = .ok (true, some Json.null) ∧
    (make_rest_call exState "/e" ActionResult.fresh none none none "get"
        (.resp { status_code := 299, text := "", jsonBody := some Json.null })).result
      = .ok (true, some Json.null) ∧
    (make_rest_call exState "/e" ActionResult.fresh none none none "get"
        (.resp { status_code := 399, text := "", jsonBody := some Json.null })).result
      = .ok (true, some Json.null) ∧
    (make_rest_call exState "/e" ActionResult.fresh none none none "get"
        (.resp { status_code := 400, text := "", jsonBody := some Json.null })).result
      = .ok (false, some Json.null) ∧
    (make_rest_call exState "/e" ActionResult.fresh none none none "get"
        (.resp { status_code := 199, text := "", jsonBody := some Json.null })).ar.data
      = [Json.null] := by
  refine ⟨?_, ?_, ?_, ?_, ?_⟩
  · exact ((make_rest_call_status_classification exState "/e" ActionResult.fresh
      none none none "get" { status_code := 200, text := "", jsonBody := some Json.null }
      Json.null rfl rfl).1 (by decide)).1
  · exact ((make_rest_call_status_classification exState "/e" ActionResult.fresh
      none none none "get" { status_code := 299, text := "", jsonBody := some Json.null }
      Json.null rfl rfl).1 (by decide)).1
  · exact ((make_rest_call_status_classification exState "/e" ActionResult.fresh
      none none none "get" { status_code := 399, text := "", jsonBody := some Json.null }
      Json.null rfl rfl).1 (by decide)).1
  · exact ((make_rest_call_status_classification exState "/e" ActionResult.fresh
      none none none "get" { status_code := 400, text := "", jsonBody := some Json.null }
      Json.null rfl rfl).2 (by decide)).1
  · have h := ((make_rest_call_status_classification exState "/e" ActionResult.fresh
      none none none "get" { status_code := 199, text := "", jsonBody := some Json.null }
      Json.null rfl rfl).2 (by decide)).2.1
    simpa [ActionResult.fresh] using h

/-- C5: basic-auth credentials are attached to a call iff both username and
password are truthy in the config; with exactly one of them set, the call
is sent fully unauthenticated (`auth = None`), never as a partial
authentication attempt. -/
theorem auth_iff_both_credentials (c : Config) (endpoint : String)
    (ar : ActionResult) (headersArg : Option HeadersDict)
    (params : Option (List (String × String))) (data : Option Json)
    (method : String) (transport : TransportOutcome)
    (hm : getattrRequests method = .ok ()) :
    (make_rest_call (initializeConnector c) endpoint ar headersArg params data
        method transport).sent.map (fun r => r.auth)
      = some (if optTruthy c.username && optTruthy c.password then
          some (c.username, c.password) else none) := by
  have hauth : (initializeConnector c).auth_method
      = (optTruthy c.username && optTruthy c.password) := rfl
  have hu : (initializeConnector c).username = c.username := rfl
  have hp : (initializeConnector c).password = c.password := rfl
  unfold make_rest_call
  rcases transport with e | r
  · simp only [hm, hauth, hu, hp]
    rfl
  · rcases hr : r.jsonBody with _ | j
    · simp only [hm, hr, hauth, hu, hp]
      rfl
    · by_cases hc : 200 ≤ r.status_code ∧ r.status_code ≤ 399
      · simp only [hm, hr, if_pos hc, hauth, hu, hp]
        rfl
      · simp only [hm, hr, if_neg hc, hauth, hu, hp]
        rfl

/-- Witness for C5: with only a username configured, the transport call is
made with `auth = None`. -/
theorem auth_iff_both_credentials_witness :
    (make_rest_call (initializeConnector
        { device_url := "http://host", username := some "u", password := none,
          verify := false }) "/e" ActionResult.fresh none none none "get"
        okTransport).sent.map (fun r => r.auth) = some none := by
  have h := auth_iff_both_credentials
    { device_url := "http://host", username := some "u", password := none,
      verify := false } "/e" ActionResult.fresh none none none "get" okTransport rfl
  simpa [optTruthy] using h

/-- C6: a query string that fails to parse makes `_run_query` fail
immediately: error status, a message embedding the parse error, and no
dispatcher/transport invocation at all. -/
theorem run_query_invalid_json_fails_fast (st : ConnectorState)
    (loads : String → Except String Json) (p : QueryParam)
    (transport : TransportOutcome) (e : String)
    (he : loads p.query = .error e) :
    (run_query st loads p transport).result = .ok false ∧
    (run_query st loads p transport).ar.status = false ∧
    (run_query st loads p transport).ar.message
        = "Unable to load query json. Error: " ++ e ∧
    (run_query st loads p transport).sent = none := by
  unfold run_query
  rw [he]
  exact ⟨rfl, rfl, rfl, rfl⟩

/-- Witness for C6: `query="not json"` with the parse failing yields error
status and no transport request. -/
theorem run_query_invalid_json_fails_fast_witness :
    (run_query exState (fun _ => .error "Expecting value: line 1 column 1 (char 0)")
        { index := "idx", typ := "doc", query := "not json", routing := none }
        okTransport).sent = none :=
  (run_query_invalid_json_fails_fast exState
    (fun _ => .error "Expecting value: line 1 column 1 (char 0)")
    { index := "idx", typ := "doc", query := "not json", routing := none }
    okTransport "Expecting value: line 1 column 1 (char 0)" rfl).2.2.2

/-- Resolution `getattr(requests, 'get')` resolves to the verb function. -/
theorem getattr_get : getattrRequests "get" = .ok () := rfl

/-- C3 counterexample: with the query parsing to the valid JSON value
`\x7b\x7d` (an empty object, falsy in Python), `_run_query` makes the HTTP
call with NO body at all instead of the re-encoded value, because
`_make_rest_call` sends `json.dumps(data) if data else None` and an empty
dict is falsy. -/
theorem run_query_empty_object_body_dropped :
    ((run_query exState (fun _ => .ok (Json.obj [])) exQueryParam
        okTransport).sent.map (fun r => r.body)) = some none ∧
    ((run_query exState (fun _ => .ok (Json.obj [])) exQueryParam
        okTransport).sent.map (fun r => r.body))
      ≠ some (some (Json.dumps (Json.obj []))) := by
  refine ⟨rfl, ?_⟩
  intro h
  rw [show ((run_query exState (fun _ => .ok (Json.obj [])) exQueryParam
      okTransport).sent.map (fun r => r.body)) = some none from rfl] at h
  exact Option.noConfusion (Option.some.inj h)

/-- C3 (amended): for a query string that parses as valid JSON, the decoded
value is JSON-encoded and sent as the request body exactly when it is
truthy; a falsy decoded value (such as an empty object or `0`) — not only
an absent body — results in no payload. -/
theorem run_query_body_encoding (st : ConnectorState)
    (loads : String → Except String Json) (p : QueryParam) (q : Json)
    (transport : TransportOutcome) (hq : loads p.query = .ok q) :
    (run_query st loads p transport).sent.map (fun r => r.body)
      = some (if q.truthy then some q.dumps else none) := by
  unfold run_query
  rw [hq]
  rcases transport with e | r
  · rfl
  · obtain ⟨code, text, jb⟩ := r
    rcases jb with _ | j
    · rfl
    · by_cases hc : 200 ≤ code ∧ code ≤ 399
      · simp only [make_rest_call, getattr_get, if_pos hc]
        rfl
      · simp only [make_rest_call, getattr_get, if_neg hc]
        rfl

/-- Witness for C3 (amended): a truthy decoded query value is re-encoded
and sent as the body. -/
theorem run_query_body_encoding_witness :
    (run_query exState (fun _ => .ok (Json.num 5)) exQueryParam
        okTransport).sent.map (fun r => r.body) = some (some "5") := by
  have h := run_query_body_encoding exState (fun _ => .ok (Json.num 5))
    exQueryParam (Json.num 5) okTransport rfl
  simpa [Json.truthy, Json.dumps] using h

/-- C9: an action identifier matching none of the three supported constants
invokes no operation: the router returns the pre-initialized success
status, adds no action result, and attempts no transport request. -/
theorem handle_action_unknown_id (st : ConnectorState)
    (loads : String → Except String Json) (action : String) (p : QueryParam)
    (transport : TransportOutcome)
    (h1 : action ≠ ACTION_ID_RUN_QUERY) (h2 : action ≠ ACTION_ID_GET_CONFIG)
    (h3 : action ≠ ACTION_ID_TEST_ASSET_CONNECTIVITY) :
    handle_action st loads action p transport
      = { result := .ok true, results := [], sent := none } := by
  unfold handle_action
  rw [if_neg h1, if_neg h2, if_neg h3]

/-- Witness for C9: the identifier "frobnicate" matches no action, so the
router returns the initial success with nothing invoked. -/
theorem handle_action_unknown_id_witness :
    handle_action exState (fun _ => .ok Json.null) "frobnicate" exQueryParam
        okTransport = { result := .ok true, results := [], sent := none } :=
  handle_action_unknown_id exState (fun _ => .ok Json.null) "frobnicate"
    exQueryParam okTransport (by decide) (by decide) (by decide)

/-- A GET whose response parses and has an in-range status: the dispatcher
returns success with the parsed body. -/
theorem make_rest_call_get_ok_result (st : ConnectorState) (endpoint : String)
    (ar : ActionResult) (headersArg : Option HeadersDict)
    (params : Option (List (String × String))) (data : Option Json)
    (r : HttpResponse) (j : Json) (hjson : r.jsonBody = some j)
    (h200 : 200 ≤ r.status_code) (h399 : r.status_code ≤ 399) :
    (make_rest_call st endpoint ar headersArg params data "get" (.resp r)).result
      = .ok (true, some j) := by
  unfold make_rest_call
  simp only [getattr_get, hjson, if_pos (And.intro h200 h399)]

/-- A GET whose response parses and has an in-range status leaves the
action result untouched. -/
theorem make_rest_call_get_ok_ar (st : ConnectorState) (endpoint : String)
    (ar : ActionResult) (headersArg : Option HeadersDict)
    (params : Option (List (String × String))) (data : Option Json)
    (r : HttpResponse) (j : Json) (hjson : r.jsonBody = some j)
    (h200 : 200 ≤ r.status_code) (h399 : r.status_code ≤ 399) :
    (make_rest_call st endpoint ar headersArg params data "get" (.resp r)).ar = ar := by
  unfold make_rest_call
  simp only [getattr_get, hjson, if_pos (And.intro h200 h399)]

/-- Lemma: `run_query_success` on an object body whose `hits` member, if present,
is itself an object: it succeeds, reading the summary values exactly as the
spec-side readers `hitsTotalOf`/`timedOutValOf` do, appending the body as
data and setting the success status. -/
theorem run_query_success_spec (out : RestOut) (fs : List (String × Json))
    (hh : fs.lookup "hits" = none ∨ ∃ hs, fs.lookup "hits" = some (.obj hs)) :
    run_query_success out (.obj fs)
      = .ok (true, ((out.ar.update_summary
          [(ELASTICSEARCH_JSON_TOTAL_HITS, hitsTotalOf fs),
           (ELASTICSEARCH_JSON_TIMED_OUT, timedOutValOf fs)]).add_data
          (.obj fs)).set_status true "") := by
  rcases hh with hnone | ⟨hs, hsome⟩
  · simp [run_query_success, Json.get, hnone, hitsTotalOf, timedOutValOf]
    rfl
  · simp [run_query_success, Json.get, hsome, hitsTotalOf, timedOutValOf]
    rfl

/-- C7: once the query parses, `_run_query` mirrors the dispatcher outcome.
On any failure it returns the failure status with the dispatcher's action
result untouched (no data appended by the operation itself); on a
successful search response it reports success, appends the full body as
the sole data entry, and fills the summary with `hits.total` (default 0)
and `timed_out` (default false). -/
theorem run_query_result_shape (st : ConnectorState)
    (loads : String → Except String Json) (p : QueryParam) (q : Json)
    (transport : TransportOutcome) (hq : loads p.query = .ok q) :
    (∀ oj, (make_rest_call st ("/" ++ p.index ++ "/" ++ p.typ ++ "/_search")
        ActionResult.fresh none (routingParams p.routing) (some q) "get"
        transport).result = .ok (false, oj) →
      (run_query st loads p transport).result = .ok false ∧
      (run_query st loads p transport).ar
        = (make_rest_call st ("/" ++ p.index ++ "/" ++ p.typ ++ "/_search")
            ActionResult.fresh none (routingParams p.routing) (some q) "get"
            transport).ar) ∧
    (∀ r fs, transport = .resp r → r.jsonBody = some (.obj fs) →
      200 ≤ r.status_code → r.status_code ≤ 399 →
      (fs.lookup "hits" = none ∨ ∃ hs, fs.lookup "hits" = some (.obj hs)) →
      (run_query st loads p transport).result = .ok true ∧
      (run_query st loads p transport).ar.status = true ∧
      (run_query st loads p transport).ar.data = [Json.obj fs] ∧
      (run_query st loads p transport).ar.summary
        = [(ELASTICSEARCH_JSON_TOTAL_HITS, hitsTotalOf fs),
           (ELASTICSEARCH_JSON_TIMED_OUT, timedOutValOf fs)]) := by
  constructor
  · intro oj h
    simp only [run_query, hq]
    rw [h]
    exact ⟨rfl, rfl⟩
  · intro r fs ht hjson h200 h399 hh
    subst ht
    have hres := make_rest_call_get_ok_result st
      ("/" ++ p.index ++ "/" ++ p.typ ++ "/_search") ActionResult.fresh none
      (routingParams p.routing) (some q) r (.obj fs) hjson h200 h399
    have har := make_rest_call_get_ok_ar st
      ("/" ++ p.index ++ "/" ++ p.typ ++ "/_search") ActionResult.fresh none
      (routingParams p.routing) (some q) r (.obj fs) hjson h200 h399
    have hspec := run_query_success_spec (make_rest_call st
      ("/" ++ p.index ++ "/" ++ p.typ ++ "/_search") ActionResult.fresh none
      (routingParams p.routing) (some q) "get" (.resp r)) fs hh
    have hR : (run_query st loads p (.resp r)).result
        = Except.map Prod.fst (run_query_success (make_rest_call st
            ("/" ++ p.index ++ "/" ++ p.typ ++ "/_search") ActionResult.fresh none
            (routingParams p.routing) (some q) "get" (.resp r)) (Json.obj fs)) := by
      simp only [run_query, hq]
      rw [hres]
      rfl
    have hA : (run_query st loads p (.resp r)).ar
        = (match run_query_success (make_rest_call st
            ("/" ++ p.index ++ "/" ++ p.typ ++ "/_search") ActionResult.fresh none
            (routingParams p.routing) (some q) "get" (.resp r)) (Json.obj fs) with
          | .error _ => (make_rest_call st
              ("/" ++ p.index ++ "/" ++ p.typ ++ "/_search") ActionResult.fresh none
              (routingParams p.routing) (some q) "get" (.resp r)).ar
          | .ok pr => pr.2) := by
      simp only [run_query, hq]
      rw [hres]
      rfl
    simp only [hspec, har, Except.map_ok] at hR hA
    refine ⟨?_, ?_, ?_, ?_⟩
    · rw [hR]
      rfl
    · rw [hA]
      rfl
    · rw [hA]
      rfl
    · rw [hA]
      rfl

/-- Witness for C7 at the spec's scenario: a 200 response with body
`hits.total = 42`, `timed_out = false` yields success with summary
`totalHits = 42`, `timedOut = false` and the body as sole data entry. -/
theorem run_query_result_shape_witness :
    (run_query exState (fun _ => .ok (Json.num 7)) exQueryParam
        (.resp exRespHits)).result = .ok true ∧
    (run_query exState (fun _ => .ok (Json.num 7)) exQueryParam
        (.resp exRespHits)).ar.summary
      = [("totalHits", Json.num 42), ("timedOut", Json.bool false)] := by
  have h := (run_query_result_shape exState (fun _ => .ok (Json.num 7))
    exQueryParam (Json.num 7) (.resp exRespHits) rfl).2
    exRespHits exHitsBody rfl rfl (by decide) (by decide)
    (Or.inr ⟨[("total", .num 42)], rfl⟩)
  exact ⟨h.1, h.2.2.2⟩

/-- An `Except` bind on a success reduces to the continuation. -/
theorem except_bind_ok {α β ε : Type} (a : α) (f : α → Except ε β) :
    (Except.ok a >>= f) = f a := rfl

/-- The same reduction for `Except.bind` spelled out. -/
theorem except_bind_ok_fn {α β ε : Type} (a : α) (f : α → Except ε β) :
    Except.bind (Except.ok a) f = f a := rfl

/-- In an association list with distinct keys, membership determines
`lookup`. -/
theorem lookup_eq_of_mem_of_nodup {β : Type} (fs : List (String × β))
    (k : String) (v : β) (hnd : (fs.map Prod.fst).Nodup) (hmem : (k, v) ∈ fs) :
    fs.lookup k = some v := by
  induction fs with
  | nil => cases hmem
  | cons p fs ih =>
    obtain ⟨a, b⟩ := p
    have hnd' : (∀ x : β, (a, x) ∉ fs) ∧ (fs.map Prod.fst).Nodup := by
      simpa using hnd
    rcases List.mem_cons.mp hmem with heq | hmem'
    · rw [← heq]
      simp [List.lookup]
    · have hk : k ≠ a := by
        intro hkp
        exact hnd'.1 v (hkp ▸ hmem')
      simp [List.lookup_cons, beq_false_of_ne hk, ih hnd'.2 hmem']

/-- The `_get_config` loop on an object body: when each listed key's value
carries an object-valued `mappings` member, the loop raises nothing and
appends exactly one `gcEntry` per key in order. -/
theorem get_config_loop_spec (fs : List (String × Json)) (ks : List String)
    (acc : ActionResult)
    (h : ∀ k ∈ ks, ∃ ms,
      Json.subscript ((fs.lookup k).getD Json.null) "mappings" = .ok (.obj ms)) :
    get_config_loop (.obj fs) acc ks
      = .ok { acc with data := acc.data ++ ks.map (gcEntry fs) } := by
  induction ks generalizing acc with
  | nil =>
    simp [get_config_loop]
    rfl
  | cons k ks ih =>
    obtain ⟨ms, hms⟩ := h k (List.mem_cons_self k ks)
    rcases hlk : fs.lookup k with _ | v
    · rw [hlk] at hms
      simp [Json.subscript] at hms
    · rw [hlk] at hms
      simp only [Option.getD_some] at hms
      have hf : Json.subscript (Json.obj fs) k = .ok v := by
        simp [Json.subscript, hlk]
      have hgc : gcEntry fs k
          = Json.obj [("index", Json.str k),
              ("types", Json.arr ((ms.map Prod.fst).map Json.str))] := by
        simp [gcEntry, mappingTypeNames, hlk, hms]
      have hstep : get_config_loop (Json.obj fs) acc (k :: ks)
          = get_config_loop (Json.obj fs) (acc.add_data (gcEntry fs k)) ks := by
        rw [hgc]
        simp [get_config_loop, List.foldlM, hf, hms, Json.keysOf, except_bind_ok]
      rw [hstep, ih _ (fun k' hk' => h k' (List.mem_cons_of_mem _ hk'))]
      simp only [ActionResult.add_data, List.map_cons, List.append_assoc,
        List.singleton_append]

/-- With distinct index keys, the per-key loop entries coincide with the
per-pair entries read off the response object. -/
theorem map_gcEntry_of_nodup (fs : List (String × Json))
    (hnd : (fs.map Prod.fst).Nodup) :
    (fs.map Prod.fst).map (gcEntry fs)
      = fs.map (fun p => Json.obj [("index", .str p.1),
          ("types", .arr ((mappingTypeNames p.2).map Json.str))]) := by
  rw [List.map_map]
  refine List.map_congr_left ?_
  intro p hp
  obtain ⟨k, v⟩ := p
  have hl := lookup_eq_of_mem_of_nodup fs k v hnd hp
  simp [Function.comp, gcEntry, hl]

/-- The handler `_get_config` on a successful, well-shaped `/_mapping` response: the
result is success and the action result is the dispatcher's, extended with
one entry per index key and the `total_indices` summary. -/
theorem get_config_action_success (st : ConnectorState) (r : HttpResponse)
    (fs : List (String × Json)) (hjson : r.jsonBody = some (.obj fs))
    (h200 : 200 ≤ r.status_code) (h399 : r.status_code ≤ 399)
    (hks : ∀ k ∈ fs.map Prod.fst, ∃ ms,
      Json.subscript ((fs.lookup k).getD Json.null) "mappings" = .ok (.obj ms)) :
    (get_config_action st (.resp r)).result = .ok true ∧
    (get_config_action st (.resp r)).ar
      = (({ (make_rest_call st "/_mapping" ActionResult.fresh none none none
              "get" (.resp r)).ar with
            data := (make_rest_call st "/_mapping" ActionResult.fresh none none
              none "get" (.resp r)).ar.data
              ++ (fs.map Prod.fst).map (gcEntry fs) } :
          ActionResult).update_summary
          [("total_indices", Json.num ((fs.map Prod.fst).length : Int))]).set_status
        true "" := by
  have hres := make_rest_call_get_ok_result st "/_mapping" ActionResult.fresh
    none none none r (.obj fs) hjson h200 h399
  have hloop := get_config_loop_spec fs (fs.map Prod.fst)
    (make_rest_call st "/_mapping" ActionResult.fresh none none none "get"
      (.resp r)).ar hks
  have hR : (get_config_action st (.resp r)).result
      = Except.map Prod.fst
          (Except.bind (get_config_loop (Json.obj fs)
            (make_rest_call st "/_mapping" ActionResult.fresh none none none
              "get" (.resp r)).ar (fs.map Prod.fst))
          (fun ar1 => Except.ok (true,
            (ar1.update_summary [("total_indices",
              Json.num ((fs.map Prod.fst).length : Int))]).set_status true ""))) := by
    simp only [get_config_action]
    rw [hres]
    rfl
  have hA : (get_config_action st (.resp r)).ar
      = (match Except.bind (get_config_loop (Json.obj fs)
            (make_rest_call st "/_mapping" ActionResult.fresh none none none
              "get" (.resp r)).ar (fs.map Prod.fst))
          (fun ar1 => Except.ok (true,
            (ar1.update_summary [("total_indices",
              Json.num ((fs.map Prod.fst).length : Int))]).set_status true "")) with
        | .error _ => (make_rest_call st "/_mapping" ActionResult.fresh none
            none none "get" (.resp r)).ar
        | .ok pr => pr.2) := by
    simp only [get_config_action]
    rw [hres]
    rfl
  rw [hloop] at hR hA
  simp only [except_bind_ok_fn, Except.map_ok] at hR hA
  exact ⟨hR, hA⟩

/-- C8: on a successful `/_mapping` response mapping each index name to an
object carrying an object-valued `mappings` member, `_get_config` reports
success, appends one `{index, types}` data entry per top-level index in
the response's iteration order — `types` being the keys of that index's
`mappings` — and records `total_indices` as the number of top-level keys;
this holds also for an empty index set. -/
theorem get_config_success_shape (st : ConnectorState) (r : HttpResponse)
    (fs : List (String × Json)) (hjson : r.jsonBody = some (.obj fs))
    (h200 : 200 ≤ r.status_code) (h399 : r.status_code ≤ 399)
    (hnodup : (fs.map Prod.fst).Nodup)
    (hmaps : ∀ p ∈ fs, ∃ ms, Json.subscript p.2 "mappings" = .ok (.obj ms)) :
    (get_config_action st (.resp r)).result = .ok true ∧
    (get_config_action st (.resp r)).ar.status = true ∧
    (get_config_action st (.resp r)).ar.data
      = fs.map (fun p => Json.obj [("index", .str p.1),
          ("types", .arr ((mappingTypeNames p.2).map Json.str))]) ∧
    (get_config_action st (.resp r)).ar.summary.lookup "total_indices"
      = some (.num (fs.length : Int)) := by
  have hks : ∀ k ∈ fs.map Prod.fst, ∃ ms,
      Json.subscript ((fs.lookup k).getD Json.null) "mappings" = .ok (.obj ms) := by
    intro k hk
    obtain ⟨p, hp, hpk⟩ := List.mem_map.mp hk
    subst hpk
    obtain ⟨ms, hms⟩ := hmaps p hp
    refine ⟨ms, ?_⟩
    rw [lookup_eq_of_mem_of_nodup fs p.1 p.2 hnodup (by simpa using hp)]
    simpa using hms
  have h := get_config_action_success st r fs hjson h200 h399 hks
  have har := make_rest_call_get_ok_ar st "/_mapping" ActionResult.fresh none
    none none r (.obj fs) hjson h200 h399
  rw [har] at h
  refine ⟨h.1, ?_, ?_, ?_⟩
  · rw [h.2]
    rfl
  · rw [h.2]
    show (fs.map Prod.fst).map (gcEntry fs) = _
    exact map_gcEntry_of_nodup fs hnodup
  · rw [h.2]
    show some (Json.num ((fs.map Prod.fst).length : Int))
      = some (Json.num (fs.length : Int))
    rw [List.length_map]

/-- Witness for C8 at the spec's scenario (`idx1` with types `t1`, `t2`)
and at the empty mapping. -/
theorem get_config_success_shape_witness :
    (get_config_action exState (.resp exRespMapping)).result = .ok true ∧
    (get_config_action exState (.resp exRespMapping)).ar.data
      = [Json.obj [("index", .str "idx1"),
          ("types", .arr [.str "t1", .str "t2"])]] ∧
    (get_config_action exState (.resp exRespMapping)).ar.summary.lookup
        "total_indices" = some (.num 1) ∧
    (get_config_action exState
        (.resp { status_code := 200, text := "", jsonBody := some (.obj []) })).result
      = .ok true := by
  have h := get_config_success_shape exState exRespMapping exMappingBody rfl
    (by decide) (by decide) (by decide)
    (by
      rintro p hp
      simp [exMappingBody] at hp
      subst hp
      exact ⟨[("t1", Json.obj []), ("t2", Json.obj [])], rfl⟩)
  have h0 := get_config_success_shape exState
    { status_code := 200, text := "", jsonBody := some (.obj []) } [] rfl
    (by decide) (by decide) (by decide) (by rintro p hp; cases hp)
  exact ⟨h.1, h.2.2.1, h.2.2.2, h0.1⟩

/-- C1 counterexample: `_get_config` applied to a parsed 200 `/_mapping`
response in which the index object lacks a `mappings` key raises a
`KeyError` that escapes the action boundary instead of producing a
structured failure or success. -/
theorem get_config_missing_mappings_raises :
    (get_config_action exState (.resp exRespBadMapping)).result
      = .error "KeyError: mappings" := rfl

/-- The dispatcher itself never lets an exception escape on a GET: every
transport/parse outcome yields a structured `(status, body)` pair. -/
theorem make_rest_call_get_structured (st : ConnectorState) (endpoint : String)
    (ar : ActionResult) (headersArg : Option HeadersDict)
    (params : Option (List (String × String))) (data : Option Json)
    (transport : TransportOutcome) :
    ∃ pr, (make_rest_call st endpoint ar headersArg params data "get"
        transport).result = .ok pr := by
  rcases transport with e | r
  · exact ⟨(false, none), rfl⟩
  · obtain ⟨code, text, jb⟩ := r
    rcases jb with _ | j
    · exact ⟨(false, none), rfl⟩
    · by_cases hc : 200 ≤ code ∧ code ≤ 399
      · refine ⟨(true, some j), ?_⟩
        unfold make_rest_call
        simp only [if_pos hc]
        rfl
      · refine ⟨(false, some j), ?_⟩
        unfold make_rest_call
        simp only [if_neg hc]
        rfl


/-- The connectivity check returns a structured status for every transport
or parse outcome: the dispatcher's result is matched and both branches set
a status instead of raising. -/
theorem test_connectivity_structured (st : ConnectorState)
    (transport : TransportOutcome) :
    ∃ b, (test_connectivity st transport).result = .ok b := by
  obtain ⟨⟨ret, oj⟩, hpr⟩ := make_rest_call_get_structured st
    "/_cluster/health" ActionResult.fresh none none none transport
  simp only [test_connectivity]
  rw [hpr]
  rcases ret with _ | _
  · exact ⟨false, rfl⟩
  · exact ⟨true, rfl⟩

/-- The run-query handler returns a structured status for every query parse
outcome and every transport outcome whose successful body is a JSON object
with an object-valued `hits` member when present (the claim's own reading
of `body.hits.total`; Python `.get` would raise on other shapes). -/
theorem run_query_structured (st : ConnectorState)
    (loads : String → Except String Json) (p : QueryParam)
    (transport : TransportOutcome)
    (hsearch : ∀ r j, transport = .resp r → r.jsonBody = some j →
      200 ≤ r.status_code → r.status_code ≤ 399 →
      ∃ fs, j = .obj fs ∧
        (fs.lookup "hits" = none ∨ ∃ hs, fs.lookup "hits" = some (.obj hs))) :
    ∃ b, (run_query st loads p transport).result = .ok b := by
  rcases hq : loads p.query with e | q
  · refine ⟨false, ?_⟩
    simp only [run_query, hq]
  · rcases transport with e | r
    · refine ⟨false, ?_⟩
      have h0 : (make_rest_call st ("/" ++ p.index ++ "/" ++ p.typ ++ "/_search")
          ActionResult.fresh none (routingParams p.routing) (some q) "get"
          (.exn e)).result = .ok (false, none) := rfl
      simp only [run_query, hq]
      rw [h0]
      rfl
    · obtain ⟨code, text, jb⟩ := r
      rcases jb with _ | j
      · refine ⟨false, ?_⟩
        have h0 : (make_rest_call st
            ("/" ++ p.index ++ "/" ++ p.typ ++ "/_search") ActionResult.fresh
            none (routingParams p.routing) (some q) "get"
            (.resp { status_code := code, text := text, jsonBody := none })).result
            = .ok (false, none) := rfl
        simp only [run_query, hq]
        rw [h0]
        rfl
      · by_cases hc : 200 ≤ code ∧ code ≤ 399
        · obtain ⟨fs, rfl, hh⟩ := hsearch
            { status_code := code, text := text, jsonBody := some j } j
            rfl rfl hc.1 hc.2
          refine ⟨true, ?_⟩
          have hres := make_rest_call_get_ok_result st
            ("/" ++ p.index ++ "/" ++ p.typ ++ "/_search") ActionResult.fresh
            none (routingParams p.routing) (some q)
            { status_code := code, text := text, jsonBody := some (.obj fs) }
            (.obj fs) rfl hc.1 hc.2
          have hspec := run_query_success_spec (make_rest_call st
            ("/" ++ p.index ++ "/" ++ p.typ ++ "/_search") ActionResult.fresh
            none (routingParams p.routing) (some q) "get"
            (.resp { status_code := code, text := text, jsonBody := some (.obj fs) })) fs hh
          have hR : (run_query st loads p
              (.resp { status_code := code, text := text, jsonBody := some (.obj fs) })).result
              = Except.map Prod.fst (run_query_success (make_rest_call st
                  ("/" ++ p.index ++ "/" ++ p.typ ++ "/_search")
                  ActionResult.fresh none (routingParams p.routing) (some q)
                  "get" (.resp { status_code := code, text := text, jsonBody := some (.obj fs) })) (Json.obj fs)) := by
            simp only [run_query, hq]
            rw [hres]
            rfl
          rw [hR, hspec]
          rfl
        · refine ⟨false, ?_⟩
          have h0 : (make_rest_call st
              ("/" ++ p.index ++ "/" ++ p.typ ++ "/_search") ActionResult.fresh
              none (routingParams p.routing) (some q) "get"
              (.resp { status_code := code, text := text, jsonBody := some j })).result
              = .ok (false, some j) := by
            unfold make_rest_call
            simp only [if_neg hc]
            rfl
          simp only [run_query, hq]
          rw [h0]
          rfl

/-- The get-schema handler returns a structured status for every transport
or parse outcome whose successful body is an object mapping each index key
to an object with an object-valued `mappings` member. -/
theorem get_config_structured_of_shape (st : ConnectorState)
    (transport : TransportOutcome)
    (hw : ∀ r j, transport = .resp r → r.jsonBody = some j →
      200 ≤ r.status_code → r.status_code ≤ 399 →
      ∃ fs, j = .obj fs ∧ ∀ k ∈ fs.map Prod.fst,
        ∃ ms, Json.subscript ((fs.lookup k).getD Json.null) "mappings"
          = .ok (.obj ms)) :
    ∃ b, (get_config_action st transport).result = .ok b := by
  rcases transport with e | r
  · refine ⟨false, ?_⟩
    have h0 : (make_rest_call st "/_mapping" ActionResult.fresh none none
        none "get" (.exn e)).result = .ok (false, none) := rfl
    simp only [get_config_action]
    rw [h0]
    rfl
  · obtain ⟨code, text, jb⟩ := r
    rcases jb with _ | j
    · refine ⟨false, ?_⟩
      have h0 : (make_rest_call st "/_mapping" ActionResult.fresh none none
          none "get"
          (.resp { status_code := code, text := text, jsonBody := none })).result
          = .ok (false, none) := rfl
      simp only [get_config_action]
      rw [h0]
      rfl
    · by_cases hc : 200 ≤ code ∧ code ≤ 399
      · obtain ⟨fs, rfl, hks⟩ := hw
          { status_code := code, text := text, jsonBody := some j } j
          rfl rfl hc.1 hc.2
        exact ⟨true, (get_config_action_success st
          { status_code := code, text := text, jsonBody := some (.obj fs) }
          fs rfl hc.1 hc.2 hks).1⟩
      · refine ⟨false, ?_⟩
        have h0 : (make_rest_call st "/_mapping" ActionResult.fresh none none
            none "get"
            (.resp { status_code := code, text := text, jsonBody := some j })).result
            = .ok (false, some j) := by
          unfold make_rest_call
          simp only [if_neg hc]
          rfl
        simp only [get_config_action]
        rw [h0]
        rfl

/-- C1 (amended): no exception crosses the action boundary for the
underlying HTTP call or response parsing. For every transport or parse
outcome, the dispatcher returns a structured result and the connectivity
check returns a structured status — unconditionally. RunQuery returns a
structured status for every query parse outcome whenever a successful body
is a JSON object whose `hits` member, if present, is an object (the
claim's own `body.hits.total` reading); GetSchema returns a structured
status whenever every index object of a successful `/_mapping` body
carries an object-valued `mappings` member — but on a parsed body in which
some index object lacks `mappings` it raises an uncaught KeyError that
escapes the action boundary (see the counterexample). -/
theorem actions_structured_outcomes (st : ConnectorState) (endpoint : String)
    (ar : ActionResult) (headersArg : Option HeadersDict)
    (params : Option (List (String × String))) (data : Option Json)
    (loads : String → Except String Json) (p : QueryParam)
    (transport : TransportOutcome) :
    (∃ pr, (make_rest_call st endpoint ar headersArg params data "get"
        transport).result = .ok pr) ∧
    (∃ b, (test_connectivity st transport).result = .ok b) ∧
    ((∀ r j, transport = .resp r → r.jsonBody = some j →
        200 ≤ r.status_code → r.status_code ≤ 399 →
        ∃ fs, j = .obj fs ∧
          (fs.lookup "hits" = none ∨ ∃ hs, fs.lookup "hits" = some (.obj hs))) →
      ∃ b, (run_query st loads p transport).result = .ok b) ∧
    ((∀ r j, transport = .resp r → r.jsonBody = some j →
        200 ≤ r.status_code → r.status_code ≤ 399 →
        ∃ fs, j = .obj fs ∧ ∀ k ∈ fs.map Prod.fst,
          ∃ ms, Json.subscript ((fs.lookup k).getD Json.null) "mappings"
            = .ok (.obj ms)) →
      ∃ b, (get_config_action st transport).result = .ok b) :=
  ⟨make_rest_call_get_structured st endpoint ar headersArg params data transport,
   test_connectivity_structured st transport,
   fun hsearch => run_query_structured st loads p transport hsearch,
   fun hw => get_config_structured_of_shape st transport hw⟩

/-- Witness for C1 (amended): at a 200 response carrying the spec's
`/_mapping` scenario body, all four structured outcomes hold, the two
conditional ones with their shape premises discharged (the body is an
object, has no `hits` member, and its one index carries an object-valued
`mappings`). -/
theorem actions_structured_outcomes_witness :
    (∃ pr, (make_rest_call exState "/_cluster/health" ActionResult.fresh none
        none none "get" (.resp exRespMapping)).result = .ok pr) ∧
    (∃ b, (test_connectivity exState (.resp exRespMapping)).result = .ok b) ∧
    (∃ b, (run_query exState (fun _ => .ok (Json.num 7)) exQueryParam
        (.resp exRespMapping)).result = .ok b) ∧
    (∃ b, (get_config_action exState (.resp exRespMapping)).result = .ok b) := by
  have h := actions_structured_outcomes exState "/_cluster/health"
    ActionResult.fresh none none none (fun _ => .ok (Json.num 7)) exQueryParam
    (.resp exRespMapping)
  refine ⟨h.1, h.2.1, h.2.2.1 ?_, h.2.2.2 ?_⟩
  · rintro r j hr hj h1 h2
    have hr' : TransportOutcome.resp exRespMapping = .resp r := hr
    injection hr' with hh
    subst hh
    obtain rfl := Option.some.inj
      (hj : some (Json.obj exMappingBody) = some j)
    exact ⟨exMappingBody, rfl, Or.inl rfl⟩
  · rintro r j hr hj h1 h2
    have hr' : TransportOutcome.resp exRespMapping = .resp r := hr
    injection hr' with hh
    subst hh
    obtain rfl := Option.some.inj
      (hj : some (Json.obj exMappingBody) = some j)
    refine ⟨exMappingBody, rfl, ?_⟩
    intro k hk
    simp [exMappingBody] at hk
    subst hk
    exact ⟨[("t1", Json.obj []), ("t2", Json.obj [])], rfl⟩
